import Mathlib

/-!
# Rupee Loom — verification of the client-side aggregation layer

Shallow embedding of the budget-progress computation, the dashboard
aggregation, the data-access refresh logic and the quick-expense form
normalization of the Rupee Loom personal-finance application.

Modelling conventions:
* Monetary amounts (JS `number`) are modelled as rationals `ℚ`.
* Instants (JS `Date` values, compared by their millisecond timestamps)
  are modelled as integers `Int` (milliseconds since the epoch).
* The current-month window endpoints produced by the date-fns library
  calls `startOfMonth(new Date())` / `endOfMonth(new Date())`, and the
  evaluation instant `Date.now()`, are external library values and are
  taken as parameters (`monthStart`, `monthEnd`, `now`).
* Nullable / optional TypeScript fields are modelled with `Option`.
-/

/-- `Category` row, from the `Category` interface of the database-types
module. -/
structure Category where
  id : String
  user_id : String
  name : String
  icon : String
  color : String
  is_default : Bool
  created_at : String
deriving DecidableEq

/-- `Expense` row, from the `Expense` interface of the database-types
module.  `date` is the millisecond timestamp of `new Date(expense.date)`. -/
structure Expense where
  id : String
  user_id : String
  category_id : Option String
  amount : ℚ
  description : String
  date : Int
  payment_method : String
  receipt_url : Option String
  location : Option String
  tags : List String
  is_regret : Bool
  regret_reason : Option String
  regret_intensity : Option Int
  created_at : String
  category : Option Category
deriving DecidableEq

/-- Budget period enumeration `'weekly' | 'monthly' | 'yearly'`. -/
inductive Period where
  | weekly
  | monthly
  | yearly
deriving DecidableEq

/-- `Budget` row, from the `Budget` interface of the database-types
module. -/
structure Budget where
  id : String
  user_id : String
  category_id : String
  amount : ℚ
  period : Period
  start_date : String
  end_date : String
  is_active : Bool
  created_at : String
  category : Option Category
deriving DecidableEq

/-- Recurring-payment frequency `'daily' | 'weekly' | 'monthly' | 'yearly'`. -/
inductive Frequency where
  | daily
  | weekly
  | monthly
  | yearly
deriving DecidableEq

/-- `RecurringPayment` row, from the `RecurringPayment` interface of the
database-types module.  `next_due_date` is the millisecond timestamp of
`new Date(payment.next_due_date)`. -/
structure RecurringPayment where
  id : String
  user_id : String
  category_id : Option String
  name : String
  amount : ℚ
  frequency : Frequency
  next_due_date : Int
  is_active : Bool
  auto_pay : Bool
  provider : Option String
  last_paid : Option String
  created_at : String
  category : Option Category
deriving DecidableEq

/-- date-fns `isWithinInterval(d, { start, end })`: inclusive at both
ends. -/
def isWithinInterval (d start stop : Int) : Bool :=
  decide (start ≤ d ∧ d ≤ stop)

/-- The record produced by the budget-progress computation: the original
budget's fields spread (`...budget`) plus the derived fields. -/
structure BudgetWithProgress where
  id : String
  user_id : String
  category_id : String
  amount : ℚ
  period : Period
  start_date : String
  end_date : String
  is_active : Bool
  created_at : String
  category : Option Category
  spent : ℚ
  remaining : ℚ
  percentage : ℚ
  isOverBudget : Bool
deriving DecidableEq

/-- The `budgetProgress` memo of the Budgets page.  The source computes
`monthStart = startOfMonth(new Date())` and `monthEnd = endOfMonth(new
Date())` via date-fns; those two instants are the `monthStart`/`monthEnd`
parameters here.  For each budget it filters the expenses by category and
calendar-month window, sums their amounts, and returns the budget spread
together with `spent`, `remaining`, `percentage` (clamped via
`Math.min(·, 100)`) and `isOverBudget`. -/
def budgetProgress (monthStart monthEnd : Int) (budgets : List Budget)
    (expenses : List Expense) : List BudgetWithProgress :=
  budgets.map fun budget =>
    let categoryExpenses := expenses.filter fun expense =>
      decide (expense.category_id = some budget.category_id) &&
      isWithinInterval expense.date monthStart monthEnd
    let spent := categoryExpenses.foldl (fun sum expense => sum + expense.amount) 0
    let remaining := budget.amount - spent
    let percentage := (spent / budget.amount) * 100
    { id := budget.id
      user_id := budget.user_id
      category_id := budget.category_id
      amount := budget.amount
      period := budget.period
      start_date := budget.start_date
      end_date := budget.end_date
      is_active := budget.is_active
      created_at := budget.created_at
      category := budget.category
      spent := spent
      remaining := remaining
      percentage := min percentage 100
      isOverBudget := decide (spent > budget.amount) }

/-- Spec-side definition of `spent`: the sum of the amounts of exactly
those expenses whose `category_id` equals the budget's category and whose
date lies in the (inclusive) month window. -/
def spentSpec (monthStart monthEnd : Int) (categoryId : String)
    (expenses : List Expense) : ℚ :=
  ((expenses.filter fun e =>
      decide (e.category_id = some categoryId) &&
      isWithinInterval e.date monthStart monthEnd).map Expense.amount).sum

/-- Folding `(· + amount ·)` over a list starting from `a` is `a` plus the
sum of the mapped amounts. -/
theorem foldl_add_map_sum {α : Type} (f : α → ℚ) (a : ℚ) (l : List α) :
    l.foldl (fun s x => s + f x) a = a + (l.map f).sum := by
  induction l generalizing a with
  | nil => simp
  | cons x xs ih =>
    simp only [List.foldl_cons, List.map_cons, List.sum_cons, ih]
    ring

/-- `Debt` row, from the `Debt` interface of the database-types module. -/
structure Debt where
  id : String
  user_id : String
  name : String
  total_amount : ℚ
  remaining_amount : ℚ
  interest_rate : Option ℚ
  emi_amount : Option ℚ
  due_date : Option String
  lender : Option String
  debt_type : String
  created_at : String
deriving DecidableEq

/-- `SavingsChallenge` row, from the `SavingsChallenge` interface of the
database-types module. -/
structure SavingsChallenge where
  id : String
  user_id : String
  title : String
  description : Option String
  target_amount : ℚ
  current_amount : ℚ
  start_date : String
  end_date : String
  is_completed : Bool
  challenge_type : String
  created_at : String
deriving DecidableEq

/-- `RegretPurchase` row, from the `RegretPurchase` interface of the
database-types module. -/
structure RegretPurchase where
  id : String
  user_id : String
  expense_id : String
  regret_reason : String
  intensity : Int
  emotional_trigger : Option String
  alternative_action : Option String
  lesson_learned : Option String
  created_at : String
  expense : Option Expense
deriving DecidableEq

/-- `Insight` row, from the `Insight` interface of the database-types
module (the arbitrary `data` payload is kept as a string). -/
structure Insight where
  id : String
  user_id : String
  insight_type : String
  title : String
  content : String
  data : String
  is_read : Bool
  created_at : String
deriving DecidableEq

/-- The record returned by the `monthlyStats` memo of the Dashboard
page. -/
structure MonthlyStats where
  totalSpent : ℚ
  totalBudget : ℚ
  budgetRemaining : ℚ
  regretSpending : ℚ
  upcomingPayments : List RecurringPayment
  expenseCount : Nat
deriving DecidableEq

/-- The `monthlyStats` memo of the Dashboard page.  `monthStart`/`monthEnd`
are the date-fns `startOfMonth`/`endOfMonth` of the current instant and
`now` is `Date.now()` in milliseconds; `7 * 24 * 60 * 60 * 1000` mirrors
the source's 7-day offset.  The upcoming-payments filter compares each
payment's `next_due_date` against `new Date(Date.now() + 7*24*60*60*1000)`
with `<=` only — the source has no lower bound on the due date. -/
def monthlyStats (monthStart monthEnd now : Int) (expenses : List Expense)
    (budgets : List Budget) (recurringPayments : List RecurringPayment) :
    MonthlyStats :=
  let monthlyExpenses := expenses.filter fun expense =>
    isWithinInterval expense.date monthStart monthEnd
  let totalSpent := monthlyExpenses.foldl (fun sum expense => sum + expense.amount) 0
  let totalBudget := budgets.foldl (fun sum budget => sum + budget.amount) 0
  let regretSpending := (monthlyExpenses.filter fun expense =>
    expense.is_regret).foldl (fun sum expense => sum + expense.amount) 0
  let upcomingPayments := recurringPayments.filter fun payment =>
    decide (payment.next_due_date ≤ now + 7 * 24 * 60 * 60 * 1000)
  { totalSpent := totalSpent
    totalBudget := totalBudget
    budgetRemaining := totalBudget - totalSpent
    regretSpending := regretSpending
    upcomingPayments := upcomingPayments
    expenseCount := monthlyExpenses.length }

/-- The in-memory collection snapshots held by the data provider (one
`useState` per collection). -/
structure Snapshots where
  categories : List Category
  expenses : List Expense
  budgets : List Budget
  recurringPayments : List RecurringPayment
  debts : List Debt
  savingsChallenges : List SavingsChallenge
  regretPurchases : List RegretPurchase
  insights : List Insight
deriving DecidableEq

/-- The outcome of the parallel fan-out of the eight collection fetches in
`refreshData`: a store result whose `data` is non-null is `some` rows, a
failed fetch (null `data`) is `none`. -/
structure FetchResults where
  categoriesResult : Option (List Category)
  expensesResult : Option (List Expense)
  budgetsResult : Option (List Budget)
  recurringPaymentsResult : Option (List RecurringPayment)
  debtsResult : Option (List Debt)
  savingsChallengesResult : Option (List SavingsChallenge)
  regretPurchasesResult : Option (List RegretPurchase)
  insightsResult : Option (List Insight)
deriving DecidableEq

/-- The snapshot update performed by `refreshData` in the data provider:
for each collection, `if (result.data) setX(result.data)` — the setter
runs only when the fetch produced data, so a failed fetch leaves that
collection's previous snapshot untouched. -/
def refreshData (s : Snapshots) (r : FetchResults) : Snapshots :=
  { categories := match r.categoriesResult with
      | some data => data
      | none => s.categories
    expenses := match r.expensesResult with
      | some data => data
      | none => s.expenses
    budgets := match r.budgetsResult with
      | some data => data
      | none => s.budgets
    recurringPayments := match r.recurringPaymentsResult with
      | some data => data
      | none => s.recurringPayments
    debts := match r.debtsResult with
      | some data => data
      | none => s.debts
    savingsChallenges := match r.savingsChallengesResult with
      | some data => data
      | none => s.savingsChallenges
    regretPurchases := match r.regretPurchasesResult with
      | some data => data
      | none => s.regretPurchases
    insights := match r.insightsResult with
      | some data => data
      | none => s.insights }

/-- The `ExpenseFormData` shape of the Quick Expense form (all fields are
present after the form's default values are applied). -/
structure ExpenseFormData where
  amount : ℚ
  description : String
  category_id : String
  payment_method : String
  date : String
  location : String
  tags : List String
  is_regret : Bool
  regret_reason : String
  regret_intensity : Int
deriving DecidableEq

/-- The expense row the Quick Expense form inserts into the store. -/
structure NewExpense where
  user_id : String
  amount : ℚ
  description : String
  category_id : Option String
  payment_method : String
  date : String
  location : Option String
  tags : List String
  is_regret : Bool
  regret_reason : Option String
  regret_intensity : Option Int
deriving DecidableEq

/-- The JS `value || null` idiom on a string: the empty string is falsy and
becomes null. -/
def strOrNull (s : String) : Option String :=
  if s = "" then none else some s

/-- The `expenseData` object built by the Quick Expense form's `onSubmit`.
`isoDate` stands for the external `new Date(·).toISOString()` conversion
applied to the form's date string. -/
def buildExpenseData (userId : String) (isoDate : String → String)
    (data : ExpenseFormData) : NewExpense :=
  { user_id := userId
    amount := data.amount
    description := data.description
    category_id := strOrNull data.category_id
    payment_method := data.payment_method
    date := isoDate data.date
    location := strOrNull data.location
    tags := data.tags
    is_regret := data.is_regret
    regret_reason := if data.is_regret then some data.regret_reason else none
    regret_intensity := if data.is_regret then some data.regret_intensity else none }

/-! ## Concrete fixtures for the spec's scenarios -/

/-- Fixture builder: an expense with the given category, amount, date and
regret flag; all other fields neutral. -/
def mkExpense (cid : Option String) (amount : ℚ) (date : Int)
    (regret : Bool) : Expense :=
  { id := "", user_id := "", category_id := cid, amount := amount,
    description := "", date := date, payment_method := "cash",
    receipt_url := none, location := none, tags := [], is_regret := regret,
    regret_reason := none, regret_intensity := none, created_at := "",
    category := none }

/-- Fixture builder: a monthly budget with the given category and amount. -/
def mkBudget (cid : String) (amount : ℚ) : Budget :=
  { id := "", user_id := "", category_id := cid, amount := amount,
    period := Period.monthly, start_date := "", end_date := "",
    is_active := true, created_at := "", category := none }

/-- Fixture builder: an active recurring payment with the given due
instant. -/
def mkPayment (due : Int) : RecurringPayment :=
  { id := "", user_id := "", category_id := none, name := "", amount := 0,
    frequency := Frequency.monthly, next_due_date := due, is_active := true,
    auto_pay := false, provider := none, last_paid := none, created_at := "",
    category := none }

/-- Scenario A: a budget of amount 5000. -/
def budget5000 : Budget := mkBudget "c" 5000

/-- Scenario A: an in-window expense of 5200 in the budget's category. -/
def expense5200 : Expense := mkExpense (some "c") 5200 5 false

/-- Scenario B: a budget of amount 1000. -/
def budget1000 : Budget := mkBudget "c" 1000

/-- Scenario D: an in-window regret expense of 300. -/
def regret300 : Expense := mkExpense none 300 5 true

/-- Scenario D: an in-window non-regret expense of 700. -/
def plain700 : Expense := mkExpense none 700 6 false

/-- Scenario C: a payment due 3 days (in ms) after instant 0. -/
def payment3days : RecurringPayment := mkPayment (3 * 24 * 60 * 60 * 1000)

/-- Scenario C: a payment due 8 days (in ms) after instant 0. -/
def payment8days : RecurringPayment := mkPayment (8 * 24 * 60 * 60 * 1000)

/-- A payment overdue by 10 days relative to evaluation instant 0. -/
def overduePayment : RecurringPayment := mkPayment (-(10 * 24 * 60 * 60 * 1000))

/-- Last millisecond of a 31-day month whose first instant is 0. -/
def monthEnd31 : Int := 31 * 24 * 60 * 60 * 1000 - 1

/-- An expense timestamped exactly at the month-start instant. -/
def expenseAtStart : Expense := mkExpense (some "c") 100 0 false

/-- An expense timestamped at the last instant of the month. -/
def expenseAtEnd : Expense := mkExpense (some "c") 50 monthEnd31 false

/-- A category row used by the refresh fixtures. -/
def sampleCategory : Category :=
  { id := "cat1", user_id := "u1", name := "Food", icon := "", color := "",
    is_default := false, created_at := "" }

/-- Pre-refresh in-memory snapshots: one expense already loaded. -/
def sampleSnapshots : Snapshots :=
  { categories := [], expenses := [mkExpense none 1 0 false], budgets := [],
    recurringPayments := [], debts := [], savingsChallenges := [],
    regretPurchases := [], insights := [] }

/-- Fetch outcome where the expenses fetch failed and every other
collection succeeded. -/
def sampleResults : FetchResults :=
  { categoriesResult := some [sampleCategory], expensesResult := none,
    budgetsResult := some [], recurringPaymentsResult := some [],
    debtsResult := some [], savingsChallengesResult := some [],
    regretPurchasesResult := some [], insightsResult := some [] }

/-- A non-regret form submission with empty category and location. -/
def sampleFormData : ExpenseFormData :=
  { amount := 250, description := "coffee", category_id := "",
    payment_method := "cash", date := "2025-01-15", location := "",
    tags := [], is_regret := false, regret_reason := "",
    regret_intensity := 3 }

/-! ## Claims -/

/-- C1: for every list of budgets and expenses, the budget-progress
computation gives each budget a `spent` equal to the sum of the amounts of
exactly those expenses whose category matches the budget's category and
whose date lies in the current calendar-month window; and that same
calendar-month window is used for every budget regardless of the budget's
own `period`, `start_date` and `end_date` fields. -/
theorem budgetProgress_spent_calendar_month (monthStart monthEnd : Int)
    (bs : List Budget) (es : List Expense) (i : Nat) :
    (((budgetProgress monthStart monthEnd bs es)[i]?).map BudgetWithProgress.spent
        = (bs[i]?).map fun b => spentSpec monthStart monthEnd b.category_id es)
    ∧ (∀ (p : Period) (sd ed : String),
        ((budgetProgress monthStart monthEnd
              (bs.map fun b =>
                { b with period := p, start_date := sd, end_date := ed }) es)[i]?).map
            BudgetWithProgress.spent
          = ((budgetProgress monthStart monthEnd bs es)[i]?).map
            BudgetWithProgress.spent) := by
  constructor
  · simp only [budgetProgress, List.getElem?_map, Option.map_map]
    cases bs[i]? with
    | none => rfl
    | some b =>
      simp [Function.comp, spentSpec, foldl_add_map_sum]
  · intro p sd ed
    simp only [budgetProgress, List.map_map, List.getElem?_map, Option.map_map]
    cases bs[i]? with
    | none => rfl
    | some b =>
      simp [Function.comp]

/-- C2: for a budget with positive amount, the displayed `percentage` is
`min(100, 100 * spent / amount)` and `isOverBudget` holds exactly when the
unclamped `spent` exceeds the amount. -/
theorem budgetProgress_percentage_overbudget (monthStart monthEnd : Int)
    (b : Budget) (es : List Expense) (_hpos : 0 < b.amount) :
    ((budgetProgress monthStart monthEnd [b] es).map BudgetWithProgress.percentage
        = [min 100 (100 * spentSpec monthStart monthEnd b.category_id es / b.amount)])
    ∧ ((budgetProgress monthStart monthEnd [b] es).map BudgetWithProgress.isOverBudget
          = [true]
        ↔ spentSpec monthStart monthEnd b.category_id es > b.amount) := by
  constructor
  · simp only [budgetProgress, List.map_cons, List.map_nil, List.cons.injEq, and_true]
    rw [min_comm]
    congr 1
    rw [spentSpec, foldl_add_map_sum, zero_add]
    ring
  · simp only [budgetProgress, List.map_cons, List.map_nil, List.cons.injEq, and_true,
      decide_eq_true_eq]
    rw [spentSpec, foldl_add_map_sum, zero_add]

/-- Witness for C2 at Scenario A: budget amount 5000, one in-window
expense of 5200. -/
theorem budgetProgress_percentage_overbudget_witness :
    ((budgetProgress 0 1000 [budget5000] [expense5200]).map
          BudgetWithProgress.percentage
        = [min 100 (100 * spentSpec 0 1000 budget5000.category_id [expense5200]
            / budget5000.amount)])
    ∧ ((budgetProgress 0 1000 [budget5000] [expense5200]).map
            BudgetWithProgress.isOverBudget
          = [true]
        ↔ spentSpec 0 1000 budget5000.category_id [expense5200]
            > budget5000.amount) :=
  budgetProgress_percentage_overbudget 0 1000 budget5000 [expense5200]
    (by norm_num [budget5000, mkBudget])

/-- C3: `remaining` is the signed difference `amount − spent` with no
clamping, negative exactly when spent exceeds the amount; and on Scenario
B (amount 1000, no matching expenses) the output is spent 0, remaining
1000, percentage 0, isOverBudget false. -/
theorem budgetProgress_remaining_signed (monthStart monthEnd : Int)
    (bs : List Budget) (es : List Expense) (i : Nat) :
    (((budgetProgress monthStart monthEnd bs es)[i]?).map BudgetWithProgress.remaining
        = (bs[i]?).map fun b => b.amount - spentSpec monthStart monthEnd b.category_id es)
    ∧ (((budgetProgress monthStart monthEnd bs es)[i]?).map
          (fun o => decide (o.remaining < 0))
        = ((budgetProgress monthStart monthEnd bs es)[i]?).map
          (fun o => decide (o.spent > o.amount)))
    ∧ ((budgetProgress 0 10 [budget1000] []).map
          (fun o => (o.spent, o.remaining, o.percentage, o.isOverBudget))
        = [(0, 1000, 0, false)]) := by
  refine ⟨?_, ?_, ?_⟩
  · simp only [budgetProgress, List.getElem?_map, Option.map_map]
    cases bs[i]? with
    | none => rfl
    | some b =>
      simp [Function.comp, spentSpec, foldl_add_map_sum]
  · simp only [budgetProgress, List.getElem?_map, Option.map_map]
    cases bs[i]? with
    | none => rfl
    | some b =>
      simp [Function.comp, sub_neg]
  · simp [budgetProgress, budget1000, mkBudget]

/-- C4 (amended): `upcomingPayments` contains exactly those recurring
payments whose `next_due_date` is at most 7 days after the evaluation
instant — the filter has no lower bound, so overdue payments are also
counted; a payment due 3 days from the instant is counted and one due 8
days from it is excluded. -/
theorem monthlyStats_upcomingPayments_membership (monthStart monthEnd now : Int)
    (es : List Expense) (bs : List Budget) (ps : List RecurringPayment) :
    (∀ p : RecurringPayment,
        p ∈ (monthlyStats monthStart monthEnd now es bs ps).upcomingPayments
          ↔ p ∈ ps ∧ p.next_due_date ≤ now + 7 * 24 * 60 * 60 * 1000)
    ∧ (monthlyStats 0 0 0 [] [] [payment3days, payment8days]).upcomingPayments
        = [payment3days] := by
  constructor
  · intro p
    simp [monthlyStats, List.mem_filter]
  · decide

/-- C4 counterexample: at evaluation instant 0, a payment overdue by 10
days — whose due date does not fall within the next 7 days from the
instant — still appears in `upcomingPayments`, refuting "contains exactly
those payments whose next_due_date falls within the next 7 days". -/
theorem upcomingPayments_include_overdue :
    (monthlyStats 0 0 0 [] [] [overduePayment]).upcomingPayments
        = [overduePayment]
    ∧ overduePayment.next_due_date < 0 := by
  constructor
  · decide
  · decide

/-- C5: the month window is inclusive at both ends — an expense dated at
the first instant of the window and one dated at its last instant are both
counted by the budget-progress computation and by the dashboard
aggregation. -/
theorem month_window_inclusive_bounds (monthStart monthEnd now : Int)
    (h : monthStart ≤ monthEnd) (b : Budget) (e1 e2 : Expense)
    (hc1 : e1.category_id = some b.category_id)
    (hc2 : e2.category_id = some b.category_id)
    (hd1 : e1.date = monthStart) (hd2 : e2.date = monthEnd) :
    ((budgetProgress monthStart monthEnd [b] [e1, e2]).map BudgetWithProgress.spent
        = [e1.amount + e2.amount])
    ∧ (monthlyStats monthStart monthEnd now [e1, e2] [] []).totalSpent
        = e1.amount + e2.amount
    ∧ (monthlyStats monthStart monthEnd now [e1, e2] [] []).expenseCount = 2 := by
  refine ⟨?_, ?_, ?_⟩ <;>
    simp [budgetProgress, monthlyStats, isWithinInterval, hc1, hc2, hd1, hd2, h]

/-- Witness for C5: window `[0, monthEnd31]` with one expense at instant 0
and one at the last millisecond of the month. -/
theorem month_window_inclusive_bounds_witness :
    ((budgetProgress 0 monthEnd31 [budget5000] [expenseAtStart, expenseAtEnd]).map
          BudgetWithProgress.spent
        = [expenseAtStart.amount + expenseAtEnd.amount])
    ∧ (monthlyStats 0 monthEnd31 0 [expenseAtStart, expenseAtEnd] [] []).totalSpent
        = expenseAtStart.amount + expenseAtEnd.amount
    ∧ (monthlyStats 0 monthEnd31 0 [expenseAtStart, expenseAtEnd] [] []).expenseCount
        = 2 :=
  month_window_inclusive_bounds 0 monthEnd31 0 (by norm_num [monthEnd31])
    budget5000 expenseAtStart expenseAtEnd rfl rfl rfl rfl

/-- C6: `regretSpending` sums the in-window expenses flagged `is_regret`
and `totalSpent` sums all in-window expenses; on Scenario D (in-window
regret 300 and non-regret 700) they are 300 and 1000. -/
theorem monthlyStats_regret_total (monthStart monthEnd now : Int)
    (es : List Expense) (bs : List Budget) (ps : List RecurringPayment) :
    ((monthlyStats monthStart monthEnd now es bs ps).regretSpending
        = ((es.filter fun e =>
              e.is_regret && isWithinInterval e.date monthStart monthEnd).map
            Expense.amount).sum)
    ∧ ((monthlyStats monthStart monthEnd now es bs ps).totalSpent
        = ((es.filter fun e => isWithinInterval e.date monthStart monthEnd).map
            Expense.amount).sum)
    ∧ (monthlyStats 0 10 0 [regret300, plain700] [] []).regretSpending = 300
    ∧ (monthlyStats 0 10 0 [regret300, plain700] [] []).totalSpent = 1000 := by
  refine ⟨?_, ?_, ?_, ?_⟩
  · simp only [monthlyStats]
    rw [List.filter_filter, foldl_add_map_sum, zero_add]
  · simp only [monthlyStats]
    rw [foldl_add_map_sum, zero_add]
  · norm_num [monthlyStats, regret300, plain700, mkExpense, isWithinInterval]
  · norm_num [monthlyStats, regret300, plain700, mkExpense, isWithinInterval]

/-- C7: when an individual collection fetch fails (`none`), the refresh
leaves that collection's previous snapshot in place, and any collection
whose fetch succeeded is replaced with the freshly fetched data — for
every one of the eight collections. -/
theorem refreshData_partial_failure (s : Snapshots) (r : FetchResults) :
    ((r.categoriesResult = none → (refreshData s r).categories = s.categories)
      ∧ ∀ d, r.categoriesResult = some d → (refreshData s r).categories = d)
    ∧ ((r.expensesResult = none → (refreshData s r).expenses = s.expenses)
      ∧ ∀ d, r.expensesResult = some d → (refreshData s r).expenses = d)
    ∧ ((r.budgetsResult = none → (refreshData s r).budgets = s.budgets)
      ∧ ∀ d, r.budgetsResult = some d → (refreshData s r).budgets = d)
    ∧ ((r.recurringPaymentsResult = none →
          (refreshData s r).recurringPayments = s.recurringPayments)
      ∧ ∀ d, r.recurringPaymentsResult = some d →
          (refreshData s r).recurringPayments = d)
    ∧ ((r.debtsResult = none → (refreshData s r).debts = s.debts)
      ∧ ∀ d, r.debtsResult = some d → (refreshData s r).debts = d)
    ∧ ((r.savingsChallengesResult = none →
          (refreshData s r).savingsChallenges = s.savingsChallenges)
      ∧ ∀ d, r.savingsChallengesResult = some d →
          (refreshData s r).savingsChallenges = d)
    ∧ ((r.regretPurchasesResult = none →
          (refreshData s r).regretPurchases = s.regretPurchases)
      ∧ ∀ d, r.regretPurchasesResult = some d →
          (refreshData s r).regretPurchases = d)
    ∧ ((r.insightsResult = none → (refreshData s r).insights = s.insights)
      ∧ ∀ d, r.insightsResult = some d → (refreshData s r).insights = d) := by
  refine ⟨⟨?_, ?_⟩, ⟨?_, ?_⟩, ⟨?_, ?_⟩, ⟨?_, ?_⟩, ⟨?_, ?_⟩, ⟨?_, ?_⟩, ⟨?_, ?_⟩,
    ⟨?_, ?_⟩⟩ <;>
  first
    | (intro h
       simp [refreshData, h])
    | (intro d h
       simp [refreshData, h])

/-- Witness for C7: the expenses fetch failed and keeps the old snapshot
while the categories fetch succeeded and is replaced. -/
theorem refreshData_partial_failure_witness :
    (refreshData sampleSnapshots sampleResults).expenses
        = sampleSnapshots.expenses
    ∧ (refreshData sampleSnapshots sampleResults).categories
        = [sampleCategory] :=
  ⟨(refreshData_partial_failure sampleSnapshots sampleResults).2.1.1 rfl,
   (refreshData_partial_failure sampleSnapshots sampleResults).1.2
     [sampleCategory] rfl⟩

/-- C8: with an unchanged store (the same fetch outcome), refreshing twice
yields the same snapshots as refreshing once — refresh is idempotent. -/
theorem refreshData_idempotent (s : Snapshots) (r : FetchResults) :
    refreshData (refreshData s r) r = refreshData s r := by
  cases r with
  | mk c e b rp d sc rg i =>
    cases c <;> cases e <;> cases b <;> cases rp <;> cases d <;> cases sc <;>
      cases rg <;> cases i <;> rfl

/-- C9: the budget-progress computation returns one output per input
budget in the same order, and every field of the original budget record is
carried over unchanged. -/
theorem budgetProgress_frame (monthStart monthEnd : Int) (bs : List Budget)
    (es : List Expense) :
    ((budgetProgress monthStart monthEnd bs es).length = bs.length)
    ∧ ∀ i : Nat,
        ((budgetProgress monthStart monthEnd bs es)[i]?).map
            (fun o => (o.id, o.user_id, o.category_id, o.amount, o.period,
              o.start_date, o.end_date, o.is_active, o.category, o.created_at))
          = (bs[i]?).map
            (fun b => (b.id, b.user_id, b.category_id, b.amount, b.period,
              b.start_date, b.end_date, b.is_active, b.category, b.created_at)) := by
  constructor
  · simp [budgetProgress]
  · intro i
    simp only [budgetProgress, List.getElem?_map, Option.map_map]
    cases bs[i]? with
    | none => rfl
    | some b => simp [Function.comp]

/-- C10: the submitted expense row has null regret metadata whenever the
regret flag is off, and an empty category or location string is stored as
null. -/
theorem buildExpenseData_regret_null_invariant (userId : String)
    (isoDate : String → String) (data : ExpenseFormData) :
    (data.is_regret = false →
        (buildExpenseData userId isoDate data).regret_reason = none
        ∧ (buildExpenseData userId isoDate data).regret_intensity = none)
    ∧ (data.category_id = "" →
        (buildExpenseData userId isoDate data).category_id = none)
    ∧ (data.location = "" →
        (buildExpenseData userId isoDate data).location = none) := by
  refine ⟨?_, ?_, ?_⟩ <;> intro h <;> simp [buildExpenseData, strOrNull, h]

/-- Witness for C10: a non-regret submission with empty category and
location strings. -/
theorem buildExpenseData_regret_null_invariant_witness :
    ((buildExpenseData "u1" id sampleFormData).regret_reason = none
      ∧ (buildExpenseData "u1" id sampleFormData).regret_intensity = none)
    ∧ (buildExpenseData "u1" id sampleFormData).category_id = none
    ∧ (buildExpenseData "u1" id sampleFormData).location = none :=
  ⟨(buildExpenseData_regret_null_invariant "u1" id sampleFormData).1 rfl,
   (buildExpenseData_regret_null_invariant "u1" id sampleFormData).2.1 rfl,
   (buildExpenseData_regret_null_invariant "u1" id sampleFormData).2.2 rfl⟩
